import Mathlib

/-!
Verification of the background-aware countdown engine of `TimerService.js`.

The embedding below is a direct shallow translation of the mutable
`TimerService` class into pure state-passing functions.  JavaScript numbers
that hold whole seconds or epoch milliseconds are modelled as `Int`
(`Math.floor` of a division becomes `Int.fdiv`); the possibly-NaN result of
`parseInt` is modelled as `Option Int` with `none` standing for NaN.
Persistence (`AsyncStorage`) and logging are effect-free from the point of
view of the in-memory state, so calls to `saveTime`/`saveState` disappear;
every call to `notifyListeners` is recorded in an emitted event list so that
the event contract can be reasoned about.
-/

set_option autoImplicit false

namespace TimerApp

/-- The React-Native app lifecycle values the service distinguishes:
`active`, `background` and `inactive` (the string values compared in
`shouldTimerRun` and `handleAppStateChange`). -/
inductive AppStateV where
  | active
  | background
  | inactive
deriving DecidableEq

/-- The event kinds passed to `notifyListeners` by the service. -/
inductive Event where
  | trackingStarted
  | trackingStopped
  | timeUpdate
  | timeExpired
  | creditsAdded
  | creditsRemoved
  | backgroundTimeProcessed
  | appStateChanged
  | deviceLockedEvt
  | deviceUnlockedEvt
  | resetEvt
  | timeLoaded
deriving DecidableEq

/-- The mutable fields of the `TimerService` instance that the core logic
reads and writes: `availableTime` (whole seconds), `appState`,
`isDeviceLocked`, `isTimerRunning` and `backgroundStartTime`
(epoch milliseconds, `null` modelled as `none`). -/
structure TimerState where
  availableTime : Int
  appState : AppStateV
  isDeviceLocked : Bool
  isTimerRunning : Bool
  backgroundStartTime : Option Int
deriving DecidableEq

/-- `shouldTimerRun`: device unlocked, app backgrounded or inactive, and
positive available time. -/
def shouldTimerRun (s : TimerState) : Bool :=
  !s.isDeviceLocked &&
    (s.appState == AppStateV.background || s.appState == AppStateV.inactive) &&
    decide (0 < s.availableTime)

/-- `startTimer`: early return when already running; otherwise mark running,
record `backgroundStartTime = Date.now()`, arm the interval and emit
`trackingStarted`. -/
def startTimer (s : TimerState) (now : Int) : TimerState × List Event :=
  if s.isTimerRunning then (s, [])
  else
    ({ s with isTimerRunning := true, backgroundStartTime := some now },
      [Event.trackingStarted])

/-- `stopTimer`: early return when not running; otherwise clear the interval,
mark stopped and emit `trackingStopped`. -/
def stopTimer (s : TimerState) : TimerState × List Event :=
  if s.isTimerRunning then
    ({ s with isTimerRunning := false }, [Event.trackingStopped])
  else (s, [])

/-- `updateTimerState`: reconcile the running flag with `shouldTimerRun`. -/
def updateTimerState (s : TimerState) (now : Int) : TimerState × List Event :=
  if shouldTimerRun s && !s.isTimerRunning then startTimer s now
  else if !(shouldTimerRun s) && s.isTimerRunning then stopTimer s
  else (s, [])

/-- `handleTimeExpired`: stop the timer and emit `timeExpired`. -/
def handleTimeExpired (s : TimerState) : TimerState × List Event :=
  let p := stopTimer s
  (p.1, p.2 ++ [Event.timeExpired])

/-- `tick`: the interval callback.  Guard on non-positive time, decrement,
emit `timeUpdate`, and run the expiry path when zero is reached. -/
def tick (s : TimerState) : TimerState × List Event :=
  if s.availableTime ≤ 0 then handleTimeExpired s
  else
    let s1 : TimerState := { s with availableTime := s.availableTime - 1 }
    if s1.availableTime ≤ 0 then
      let p := handleTimeExpired s1
      (p.1, Event.timeUpdate :: p.2)
    else (s1, [Event.timeUpdate])

/-- `processBackgroundTime`: when `backgroundStartTime` is set (JavaScript
truthiness: the number `0` is falsy), debit
`Math.floor((Date.now() - backgroundStartTime) / 1000)` clamped at zero and
emit `backgroundTimeProcessed` when the duration is positive; in every case
finish with `backgroundStartTime = null`. -/
def processBackgroundTime (s : TimerState) (now : Int) : TimerState × List Event :=
  match s.backgroundStartTime with
  | some t0 =>
      if t0 = 0 then ({ s with backgroundStartTime := none }, [])
      else
        let d := Int.fdiv (now - t0) 1000
        if 0 < d then
          let s1 : TimerState :=
            { s with
              availableTime := max 0 (s.availableTime - d)
              backgroundStartTime := none }
          (s1, [Event.backgroundTimeProcessed])
        else ({ s with backgroundStartTime := none }, [])
  | none => ({ s with backgroundStartTime := none }, [])

/-- `handleAppStateChange` proper: on entering `active`, stop the timer and
process background time; on leaving `active`, reconcile the running flag;
otherwise do nothing.  The `appState` field has already been updated by the
listener (`onAppStateChange`). -/
def handleAppStateChange (s : TimerState) (prev cur : AppStateV) (now : Int) :
    TimerState × List Event :=
  if cur = AppStateV.active then
    let p := stopTimer s
    let q := processBackgroundTime p.1 now
    (q.1, p.2 ++ q.2)
  else if prev = AppStateV.active then updateTimerState s now
  else (s, [])

/-- The `AppState` listener: record the new state, run
`handleAppStateChange`, then emit `appStateChanged`. -/
def onAppStateChange (s : TimerState) (next : AppStateV) (now : Int) :
    TimerState × List Event :=
  let prev := s.appState
  let s0 : TimerState := { s with appState := next }
  let p := handleAppStateChange s0 prev next now
  (p.1, p.2 ++ [Event.appStateChanged])

/-- `handleLockStateChange`: reconcile the running flag (the subsequent
`saveState` only touches persistence). -/
def handleLockStateChange (s : TimerState) (now : Int) : TimerState × List Event :=
  updateTimerState s now

/-- The `deviceLocked` native listener: set the flag, run
`handleLockStateChange`, then emit the `deviceLocked` payload. -/
def onDeviceLocked (s : TimerState) (now : Int) : TimerState × List Event :=
  let s0 : TimerState := { s with isDeviceLocked := true }
  let p := handleLockStateChange s0 now
  (p.1, p.2 ++ [Event.deviceLockedEvt])

/-- The `deviceUnlocked` native listener. -/
def onDeviceUnlocked (s : TimerState) (now : Int) : TimerState × List Event :=
  let s0 : TimerState := { s with isDeviceLocked := false }
  let p := handleLockStateChange s0 now
  (p.1, p.2 ++ [Event.deviceUnlockedEvt])

/-- `addTimeCredits`: add, reconcile the running flag, emit `creditsAdded`. -/
def addTimeCredits (s : TimerState) (n : Int) (now : Int) : TimerState × List Event :=
  let s1 : TimerState := { s with availableTime := s.availableTime + n }
  let p := updateTimerState s1 now
  (p.1, p.2 ++ [Event.creditsAdded])

/-- `removeTimeCredits`: subtract clamped at zero, reconcile the running
flag, emit `creditsRemoved`. -/
def removeTimeCredits (s : TimerState) (n : Int) (now : Int) : TimerState × List Event :=
  let s1 : TimerState := { s with availableTime := max 0 (s.availableTime - n) }
  let p := updateTimerState s1 now
  (p.1, p.2 ++ [Event.creditsRemoved])

/-- `resetAll`: stop the timer, zero the budget, clear persisted keys, emit
`reset`.  The in-memory `backgroundStartTime` field is not touched. -/
def resetAll (s : TimerState) : TimerState × List Event :=
  let p := stopTimer s
  ({ p.1 with availableTime := 0 }, p.2 ++ [Event.resetEvt])

/-- The constructor's field initialisation: zero budget, environment-provided
app state, unlocked, stopped, no checkpoint. -/
def initState (a : AppStateV) : TimerState :=
  { availableTime := 0
    appState := a
    isDeviceLocked := false
    isTimerRunning := false
    backgroundStartTime := none }

/-- JavaScript `parseInt(str, 10)`: skip leading whitespace, read an optional
sign, then the longest prefix of decimal digits; `NaN` (modelled as `none`)
when that prefix is empty. -/
def jsParseInt (str : String) : Option Int :=
  let chars := str.toList.dropWhile
    (fun c => c = ' ' || c = '\t' || c = '\n' || c = '\r')
  let signed : Int × List Char :=
    match chars with
    | '-' :: cs => (-1, cs)
    | '+' :: cs => (1, cs)
    | cs => (1, cs)
  let digits := signed.2.takeWhile Char.isDigit
  if digits.isEmpty then none
  else
    some (signed.1 *
      (digits.foldl (fun a c => a * 10 + (c.toNat - Char.toNat '0')) (0 : Nat) : Int))

/-- `loadSavedTime`: `availableTime` is reassigned only when the stored value
is truthy (present and non-empty); the assigned value is
`parseInt(savedTime, 10)`, whose possibly-NaN result is the `Option Int`
(`none` = NaN).  A `some` result means `availableTime` is still a genuine
integer after loading. -/
def loadSavedTime (availableTime : Int) (stored : Option String) : Option Int :=
  match stored with
  | none => some availableTime
  | some str => if str = "" then some availableTime else jsParseInt str

/-- An observer callback registered on the bus: on an event it either
returns normally or throws with a message. -/
def Observer : Type := Event → Except String Unit

/-- What the bus records for one callback invocation: a normal return, or an
error caught (and logged) by the `try`/`catch` around the call. -/
inductive ObsOutcome where
  | ok
  | caught (msg : String)
deriving DecidableEq

/-- One protected callback invocation inside `notifyListeners`. -/
def deliverOne (o : Observer) (e : Event) : ObsOutcome :=
  match o e with
  | Except.ok _ => ObsOutcome.ok
  | Except.error m => ObsOutcome.caught m

/-- `notifyListeners`: iterate the callbacks in registration order, each one
wrapped in `try`/`catch`; the bus itself never throws and touches no timer
state. -/
def notifyListeners (ls : List Observer) (e : Event) : List ObsOutcome :=
  ls.map (fun o => deliverOne o e)

/-- JavaScript `str.padStart(2, '0')`. -/
def padStart2 (str : String) : String :=
  if str.length < 2 then
    String.mk (List.replicate (2 - str.length) '0') ++ str
  else str

/-- `formatTime`: `H:MM:SS` when at least one hour, else `M:SS`. -/
def formatTime (seconds : Nat) : String :=
  let hours := seconds / 3600
  let minutes := (seconds % 3600) / 60
  let secs := seconds % 60
  if 0 < hours then
    toString hours ++ ":" ++ padStart2 (toString minutes) ++ ":" ++
      padStart2 (toString secs)
  else
    toString minutes ++ ":" ++ padStart2 (toString secs)

/-- A two-digit zero-padded decimal rendering, written from the words of the
claim about `formatTime` (minutes and seconds zero-padded to two digits). -/
def twoDigits (n : Nat) : String :=
  if n < 10 then "0" ++ toString n else toString n

/-- The claimed behaviour of `formatTime`, written from the claim's words:
`H:MM:SS` when `3600 ≤ s` with `H = s / 3600` unpadded, otherwise `M:SS`
with `M = (s % 3600) / 60` unpadded; minutes and seconds zero-padded to two
digits. -/
def formatTimeSpec (s : Nat) : String :=
  if 3600 ≤ s then
    toString (s / 3600) ++ ":" ++ twoDigits ((s % 3600) / 60) ++ ":" ++
      twoDigits (s % 60)
  else
    toString ((s % 3600) / 60) ++ ":" ++ twoDigits (s % 60)

/-- The `trackingStarted`/`trackingStopped` events among an emitted batch. -/
def trackingEvents (es : List Event) : List Event :=
  es.filter (fun e => e == Event.trackingStarted || e == Event.trackingStopped)

/-- The states the service can reach from construction under the public
signals: lock and unlock callbacks, app-state changes (which subsume the
background-time reconciliation, run on entering `active`), credit addition
and removal with positive amounts, interval ticks (which only exist while
the timer is running), and reset.  Each signal carries the `Date.now()`
value read while handling it. -/
inductive Reachable : TimerState → Prop where
  | init (a : AppStateV) : Reachable (initState a)
  | locked {s : TimerState} (now : Int) :
      Reachable s → Reachable (onDeviceLocked s now).1
  | unlocked {s : TimerState} (now : Int) :
      Reachable s → Reachable (onDeviceUnlocked s now).1
  | appChange {s : TimerState} (next : AppStateV) (now : Int) :
      Reachable s → Reachable (onAppStateChange s next now).1
  | add {s : TimerState} {n : Int} (now : Int) :
      0 < n → Reachable s → Reachable (addTimeCredits s n now).1
  | remove {s : TimerState} {n : Int} (now : Int) :
      0 < n → Reachable s → Reachable (removeTimeCredits s n now).1
  | tickStep {s : TimerState} :
      s.isTimerRunning = true → Reachable s → Reachable (tick s).1
  | reset {s : TimerState} :
      Reachable s → Reachable (resetAll s).1

/-- The two spec invariants, proved together below: the budget is never
negative and the running flag always matches `shouldTimerRun`. -/
def Inv (s : TimerState) : Prop :=
  0 ≤ s.availableTime ∧ s.isTimerRunning = shouldTimerRun s

theorem shouldTimerRun_set_run (s : TimerState) (b : Bool) :
    shouldTimerRun { s with isTimerRunning := b } = shouldTimerRun s := rfl

theorem shouldTimerRun_set_run_bst (s : TimerState) (b : Bool) (o : Option Int) :
    shouldTimerRun { s with isTimerRunning := b, backgroundStartTime := o }
      = shouldTimerRun s := rfl

theorem shouldTimerRun_nonpos {s : TimerState} (h : s.availableTime ≤ 0) :
    shouldTimerRun s = false := by
  simp only [shouldTimerRun]
  rw [decide_eq_false (by omega : ¬ 0 < s.availableTime)]
  simp

theorem shouldTimerRun_active {s : TimerState} (h : s.appState = AppStateV.active) :
    shouldTimerRun s = false := by
  simp [shouldTimerRun, h, beq_iff_eq]

theorem shouldTimerRun_pos {s : TimerState} (h : shouldTimerRun s = true) :
    0 < s.availableTime := by
  simp only [shouldTimerRun, Bool.and_eq_true, decide_eq_true_eq] at h
  exact h.2

theorem shouldTimerRun_set_avail {s : TimerState} {v : Int}
    (hv : 0 < v) (hs : 0 < s.availableTime) :
    shouldTimerRun { s with availableTime := v } = shouldTimerRun s := by
  simp [shouldTimerRun, hv, hs]

theorem shouldTimerRun_set_appState {s : TimerState} {v : AppStateV}
    (h1 : s.appState ≠ AppStateV.active) (h2 : v ≠ AppStateV.active) :
    shouldTimerRun { s with appState := v } = shouldTimerRun s := by
  cases hv : v <;> cases hs : s.appState <;> simp_all [shouldTimerRun, beq_iff_eq]

theorem startTimer_noop {s : TimerState} (now : Int) (h : s.isTimerRunning = true) :
    startTimer s now = (s, []) := by
  simp [startTimer, h]

theorem stopTimer_noop {s : TimerState} (h : s.isTimerRunning = false) :
    stopTimer s = (s, []) := by
  simp [stopTimer, h]

theorem stopTimer_running (s : TimerState) : (stopTimer s).1.isTimerRunning = false := by
  simp only [stopTimer]
  split
  · rfl
  · next h => simpa using h

theorem stopTimer_availableTime (s : TimerState) :
    (stopTimer s).1.availableTime = s.availableTime := by
  simp only [stopTimer]; split <;> rfl

theorem stopTimer_appState (s : TimerState) :
    (stopTimer s).1.appState = s.appState := by
  simp only [stopTimer]; split <;> rfl

theorem stopTimer_bst (s : TimerState) :
    (stopTimer s).1.backgroundStartTime = s.backgroundStartTime := by
  simp only [stopTimer]; split <;> rfl

theorem pbt_bst (s : TimerState) (now : Int) :
    (processBackgroundTime s now).1.backgroundStartTime = none := by
  simp only [processBackgroundTime]
  rcases s.backgroundStartTime with _ | t0
  · rfl
  · dsimp only
    split
    · rfl
    · split <;> rfl

theorem pbt_running (s : TimerState) (now : Int) :
    (processBackgroundTime s now).1.isTimerRunning = s.isTimerRunning := by
  simp only [processBackgroundTime]
  rcases s.backgroundStartTime with _ | t0
  · rfl
  · dsimp only
    split
    · rfl
    · split <;> rfl

theorem pbt_appState (s : TimerState) (now : Int) :
    (processBackgroundTime s now).1.appState = s.appState := by
  simp only [processBackgroundTime]
  rcases s.backgroundStartTime with _ | t0
  · rfl
  · dsimp only
    split
    · rfl
    · split <;> rfl

theorem pbt_events_of_bst_none {s : TimerState} (now : Int)
    (h : s.backgroundStartTime = none) :
    (processBackgroundTime s now).2 = [] := by
  simp [processBackgroundTime, h]

theorem pbt_avail_nonneg {s : TimerState} (now : Int) (h : 0 ≤ s.availableTime) :
    0 ≤ (processBackgroundTime s now).1.availableTime := by
  simp only [processBackgroundTime]
  rcases s.backgroundStartTime with _ | t0
  · exact h
  · dsimp only
    split
    · exact h
    · split
      · exact le_max_left 0 _
      · exact h

theorem updateTimerState_availableTime (s : TimerState) (now : Int) :
    (updateTimerState s now).1.availableTime = s.availableTime := by
  simp only [updateTimerState, startTimer, stopTimer]
  split
  · split <;> rfl
  · split
    · split <;> rfl
    · rfl

theorem updateTimerState_appState (s : TimerState) (now : Int) :
    (updateTimerState s now).1.appState = s.appState := by
  simp only [updateTimerState, startTimer, stopTimer]
  split
  · split <;> rfl
  · split
    · split <;> rfl
    · rfl

theorem updateTimerState_isDeviceLocked (s : TimerState) (now : Int) :
    (updateTimerState s now).1.isDeviceLocked = s.isDeviceLocked := by
  simp only [updateTimerState, startTimer, stopTimer]
  split
  · split <;> rfl
  · split
    · split <;> rfl
    · rfl

theorem updateTimerState_consistent (s : TimerState) (now : Int) :
    (updateTimerState s now).1.isTimerRunning
      = shouldTimerRun (updateTimerState s now).1 := by
  simp only [updateTimerState, startTimer, stopTimer]
  rcases hp : shouldTimerRun s <;> rcases hr : s.isTimerRunning <;>
    simp [hp, hr, shouldTimerRun_set_run, shouldTimerRun_set_run_bst]

theorem updateTimerState_noop {s : TimerState} (now : Int)
    (h : s.isTimerRunning = shouldTimerRun s) :
    updateTimerState s now = (s, []) := by
  simp only [updateTimerState]
  rcases hp : shouldTimerRun s <;> rw [hp] at h <;> simp [hp, h]

theorem handleTimeExpired_fst (s : TimerState) :
    (handleTimeExpired s).1 = (stopTimer s).1 := rfl

theorem handleAppStateChange_active (s : TimerState) (prev : AppStateV) (now : Int) :
    handleAppStateChange s prev AppStateV.active now
      = ((processBackgroundTime (stopTimer s).1 now).1,
          (stopTimer s).2 ++ (processBackgroundTime (stopTimer s).1 now).2) := by
  simp [handleAppStateChange]

theorem handleAppStateChange_to_nonactive (s : TimerState) (now : Int)
    {prev cur : AppStateV} (hcur : cur ≠ AppStateV.active)
    (hprev : prev = AppStateV.active) :
    handleAppStateChange s prev cur now = updateTimerState s now := by
  simp [handleAppStateChange, hcur, hprev]

theorem handleAppStateChange_other (s : TimerState) (now : Int)
    {prev cur : AppStateV} (hcur : cur ≠ AppStateV.active)
    (hprev : prev ≠ AppStateV.active) :
    handleAppStateChange s prev cur now = (s, []) := by
  simp [handleAppStateChange, hcur, hprev]

theorem inv_updateTimerState (s : TimerState) (now : Int)
    (h : 0 ≤ s.availableTime) : Inv (updateTimerState s now).1 :=
  ⟨by rw [updateTimerState_availableTime]; exact h,
    updateTimerState_consistent s now⟩

theorem inv_init (a : AppStateV) : Inv (initState a) := by
  refine ⟨le_refl 0, ?_⟩
  rw [shouldTimerRun_nonpos (le_refl 0)]
  rfl

theorem inv_onDeviceLocked (s : TimerState) (now : Int) (h : Inv s) :
    Inv (onDeviceLocked s now).1 :=
  inv_updateTimerState { s with isDeviceLocked := true } now h.1

theorem inv_onDeviceUnlocked (s : TimerState) (now : Int) (h : Inv s) :
    Inv (onDeviceUnlocked s now).1 :=
  inv_updateTimerState { s with isDeviceLocked := false } now h.1

theorem inv_addTimeCredits (s : TimerState) (n now : Int) (hn : 0 ≤ n)
    (h : Inv s) : Inv (addTimeCredits s n now).1 :=
  inv_updateTimerState { s with availableTime := s.availableTime + n } now
    (add_nonneg h.1 hn)

theorem inv_removeTimeCredits (s : TimerState) (n now : Int) :
    Inv (removeTimeCredits s n now).1 :=
  inv_updateTimerState { s with availableTime := max 0 (s.availableTime - n) } now
    (le_max_left 0 _)

theorem inv_resetAll (s : TimerState) : Inv (resetAll s).1 := by
  refine ⟨le_refl 0, ?_⟩
  have h1 : (resetAll s).1.isTimerRunning = (stopTimer s).1.isTimerRunning := rfl
  rw [h1, stopTimer_running, shouldTimerRun_nonpos (le_refl 0)]

theorem inv_onAppStateChange (s : TimerState) (v : AppStateV) (now : Int)
    (h : Inv s) : Inv (onAppStateChange s v now).1 := by
  have hfst : (onAppStateChange s v now).1
      = (handleAppStateChange { s with appState := v } s.appState v now).1 := rfl
  rw [hfst]
  by_cases hv : v = AppStateV.active
  · subst hv
    rw [handleAppStateChange_active]
    refine ⟨?_, ?_⟩
    · show 0 ≤ (processBackgroundTime _ now).1.availableTime
      refine pbt_avail_nonneg now ?_
      rw [stopTimer_availableTime]
      exact h.1
    · show (processBackgroundTime _ now).1.isTimerRunning
        = shouldTimerRun (processBackgroundTime _ now).1
      rw [pbt_running, stopTimer_running]
      rw [shouldTimerRun_active ?ha]
      case ha => rw [pbt_appState, stopTimer_appState]
  · by_cases hp : s.appState = AppStateV.active
    · rw [handleAppStateChange_to_nonactive _ now hv hp]
      exact inv_updateTimerState _ now h.1
    · rw [handleAppStateChange_other _ now hv hp]
      refine ⟨h.1, ?_⟩
      show s.isTimerRunning = shouldTimerRun { s with appState := v }
      rw [shouldTimerRun_set_appState hp hv]
      exact h.2

theorem inv_tick (s : TimerState) (hrun : s.isTimerRunning = true)
    (h : Inv s) : Inv (tick s).1 := by
  have hp : shouldTimerRun s = true := by rw [← h.2]; exact hrun
  have hpos : 0 < s.availableTime := shouldTimerRun_pos hp
  simp only [tick]
  rw [if_neg (by omega : ¬ s.availableTime ≤ 0)]
  by_cases ha : s.availableTime - 1 ≤ 0
  · rw [if_pos ha]
    refine ⟨?_, ?_⟩
    · show 0 ≤ (handleTimeExpired _).1.availableTime
      rw [handleTimeExpired_fst, stopTimer_availableTime]
      show 0 ≤ s.availableTime - 1
      omega
    · show (handleTimeExpired _).1.isTimerRunning = _
      rw [handleTimeExpired_fst, stopTimer_running]
      rw [shouldTimerRun_nonpos ?hle]
      case hle =>
        rw [stopTimer_availableTime]
        show s.availableTime - 1 ≤ 0
        exact ha
  · rw [if_neg ha]
    refine ⟨by show 0 ≤ s.availableTime - 1; omega, ?_⟩
    show s.isTimerRunning = shouldTimerRun { s with availableTime := s.availableTime - 1 }
    rw [shouldTimerRun_set_avail (by omega : (0:Int) < s.availableTime - 1) hpos]
    exact h.2

theorem set_lock_eta {s : TimerState} {b : Bool} (h : s.isDeviceLocked = b) :
    ({ s with isDeviceLocked := b } : TimerState) = s := by
  cases s
  cases h
  rfl

theorem set_appState_eta {s : TimerState} {v : AppStateV} (h : s.appState = v) :
    ({ s with appState := v } : TimerState) = s := by
  cases s
  cases h
  rfl

theorem onDeviceLocked_fst_lock (s : TimerState) (now : Int) :
    (onDeviceLocked s now).1.isDeviceLocked = true := by
  show (updateTimerState { s with isDeviceLocked := true } now).1.isDeviceLocked = true
  rw [updateTimerState_isDeviceLocked]

theorem onDeviceLocked_fst_consistent (s : TimerState) (now : Int) :
    (onDeviceLocked s now).1.isTimerRunning
      = shouldTimerRun (onDeviceLocked s now).1 :=
  updateTimerState_consistent { s with isDeviceLocked := true } now

theorem onDeviceUnlocked_fst_lock (s : TimerState) (now : Int) :
    (onDeviceUnlocked s now).1.isDeviceLocked = false := by
  show (updateTimerState { s with isDeviceLocked := false } now).1.isDeviceLocked = false
  rw [updateTimerState_isDeviceLocked]

theorem onDeviceUnlocked_fst_consistent (s : TimerState) (now : Int) :
    (onDeviceUnlocked s now).1.isTimerRunning
      = shouldTimerRun (onDeviceUnlocked s now).1 :=
  updateTimerState_consistent { s with isDeviceLocked := false } now

theorem dup_lock_second (s : TimerState) (n1 n2 : Int) :
    onDeviceLocked (onDeviceLocked s n1).1 n2
      = ((onDeviceLocked s n1).1, [Event.deviceLockedEvt]) := by
  have h1 := onDeviceLocked_fst_lock s n1
  have h2 := onDeviceLocked_fst_consistent s n1
  show ((updateTimerState { (onDeviceLocked s n1).1 with isDeviceLocked := true } n2).1,
      (updateTimerState { (onDeviceLocked s n1).1 with isDeviceLocked := true } n2).2
        ++ [Event.deviceLockedEvt]) = _
  rw [set_lock_eta h1, updateTimerState_noop n2 h2]
  rfl

theorem dup_unlock_second (s : TimerState) (n1 n2 : Int) :
    onDeviceUnlocked (onDeviceUnlocked s n1).1 n2
      = ((onDeviceUnlocked s n1).1, [Event.deviceUnlockedEvt]) := by
  have h1 := onDeviceUnlocked_fst_lock s n1
  have h2 := onDeviceUnlocked_fst_consistent s n1
  show ((updateTimerState { (onDeviceUnlocked s n1).1 with isDeviceLocked := false } n2).1,
      (updateTimerState { (onDeviceUnlocked s n1).1 with isDeviceLocked := false } n2).2
        ++ [Event.deviceUnlockedEvt]) = _
  rw [set_lock_eta h1, updateTimerState_noop n2 h2]
  rfl

theorem onAppStateChange_fst_appState (s : TimerState) (v : AppStateV) (now : Int) :
    (onAppStateChange s v now).1.appState = v := by
  have hfst : (onAppStateChange s v now).1
      = (handleAppStateChange { s with appState := v } s.appState v now).1 := rfl
  rw [hfst]
  by_cases hv : v = AppStateV.active
  · subst hv
    rw [handleAppStateChange_active]
    show (processBackgroundTime _ now).1.appState = _
    rw [pbt_appState, stopTimer_appState]
  · by_cases hp : s.appState = AppStateV.active
    · rw [handleAppStateChange_to_nonactive _ now hv hp, updateTimerState_appState]
    · rw [handleAppStateChange_other _ now hv hp]

theorem onAppStateChange_active_running (s : TimerState) (now : Int) :
    (onAppStateChange s AppStateV.active now).1.isTimerRunning = false := by
  have hfst : (onAppStateChange s AppStateV.active now).1
      = (handleAppStateChange { s with appState := AppStateV.active }
          s.appState AppStateV.active now).1 := rfl
  rw [hfst, handleAppStateChange_active]
  show (processBackgroundTime _ now).1.isTimerRunning = false
  rw [pbt_running, stopTimer_running]

theorem onAppStateChange_active_bst (s : TimerState) (now : Int) :
    (onAppStateChange s AppStateV.active now).1.backgroundStartTime = none := by
  have hfst : (onAppStateChange s AppStateV.active now).1
      = (handleAppStateChange { s with appState := AppStateV.active }
          s.appState AppStateV.active now).1 := rfl
  rw [hfst, handleAppStateChange_active]
  show (processBackgroundTime _ now).1.backgroundStartTime = none
  rw [pbt_bst]

theorem dup_appChange_second (s : TimerState) (v : AppStateV) (n1 n2 : Int) :
    (onAppStateChange (onAppStateChange s v n1).1 v n2).2
      = [Event.appStateChanged] := by
  have hsa := onAppStateChange_fst_appState s v n1
  have hevts : (onAppStateChange (onAppStateChange s v n1).1 v n2).2
      = (handleAppStateChange
          { (onAppStateChange s v n1).1 with appState := v }
          (onAppStateChange s v n1).1.appState v n2).2
        ++ [Event.appStateChanged] := rfl
  rw [hevts, set_appState_eta hsa, hsa]
  by_cases hv : v = AppStateV.active
  · subst hv
    have hrun := onAppStateChange_active_running s n1
    have hbst := onAppStateChange_active_bst s n1
    rw [handleAppStateChange_active, stopTimer_noop hrun]
    show ([] ++ (processBackgroundTime (onAppStateChange s AppStateV.active n1).1 n2).2)
        ++ [Event.appStateChanged] = _
    rw [pbt_events_of_bst_none n2 hbst]
    rfl
  · rw [handleAppStateChange_other _ n2 hv hv]
    rfl

theorem reachable_inv {s : TimerState} (h : Reachable s) : Inv s := by
  induction h with
  | init a => exact inv_init a
  | locked now _ ih => exact inv_onDeviceLocked _ now ih
  | unlocked now _ ih => exact inv_onDeviceUnlocked _ now ih
  | appChange next now _ ih => exact inv_onAppStateChange _ next now ih
  | add now hn _ ih => exact inv_addTimeCredits _ _ now (le_of_lt hn) ih
  | remove now hn _ ih => exact inv_removeTimeCredits _ _ now
  | tickStep hrun _ ih => exact inv_tick _ hrun ih
  | reset _ ih => exact inv_resetAll _

theorem updateTimerState_stops {s : TimerState} (now : Int)
    (h1 : shouldTimerRun s = false) (h2 : s.isTimerRunning = true) :
    updateTimerState s now
      = ({ s with isTimerRunning := false }, [Event.trackingStopped]) := by
  simp [updateTimerState, stopTimer, h1, h2]

theorem padStart2_eq_twoDigits {n : Nat} (h : n < 60) :
    padStart2 (toString n) = twoDigits n := by
  have hall : ∀ m : Fin 60, padStart2 (toString m.val) = twoDigits m.val := by decide
  exact hall ⟨n, h⟩

/-- C1: the reconciliation step (`processBackgroundTime`) debits exactly
`floor(elapsed)` seconds from the budget, clamped at zero, and emits one
`backgroundTimeProcessed` event — but it clears the stored checkpoint
(amended: the checkpoint is set to absent, not advanced by `floor(elapsed)`
seconds, so fractional leftover elapsed time is discarded). -/
theorem reconciliation_debit_and_clear (s : TimerState) (t0 now : Int)
    (hb : s.backgroundStartTime = some t0) (ht0 : t0 ≠ 0)
    (hd : 1 ≤ Int.fdiv (now - t0) 1000) :
    (processBackgroundTime s now).1.availableTime
        = max 0 (s.availableTime - Int.fdiv (now - t0) 1000) ∧
    (processBackgroundTime s now).1.backgroundStartTime = none ∧
    (processBackgroundTime s now).2 = [Event.backgroundTimeProcessed] := by
  simp only [processBackgroundTime, hb]
  rw [if_neg ht0, if_pos (by omega : (0:Int) < Int.fdiv (now - t0) 1000)]
  exact ⟨rfl, rfl, rfl⟩

/-- C1 witness: with 100 seconds remaining and a checkpoint exactly 37
seconds in the past, reconciliation leaves 63 seconds and an absent
checkpoint. -/
theorem reconciliation_debit_and_clear_witness :
    (processBackgroundTime ⟨100, AppStateV.background, false, true, some 1000⟩
        38000).1.availableTime = 63 ∧
    (processBackgroundTime ⟨100, AppStateV.background, false, true, some 1000⟩
        38000).1.backgroundStartTime = none := by
  have h := reconciliation_debit_and_clear
    ⟨100, AppStateV.background, false, true, some 1000⟩ 1000 38000 rfl
    (by decide) (by decide)
  refine ⟨?_, h.2.1⟩
  rw [h.1]
  decide

/-- C1 counterexample: with 100 seconds remaining, a checkpoint at 1000 ms
and `now = 38500` ms (elapsed 37.5 s), the code debits 37 leaving 63 but
sets the checkpoint to absent — not to `1000 + 37 * 1000 = 38000` as the
claim requires. -/
theorem reconciliation_checkpoint_counterexample :
    (processBackgroundTime ⟨100, AppStateV.background, false, true, some 1000⟩
        38500).1.availableTime = 63 ∧
    (processBackgroundTime ⟨100, AppStateV.background, false, true, some 1000⟩
        38500).1.backgroundStartTime = none ∧
    (processBackgroundTime ⟨100, AppStateV.background, false, true, some 1000⟩
        38500).1.backgroundStartTime ≠ some 38000 := by
  refine ⟨by decide, by decide, by decide⟩

/-- C2: in every state reachable from construction under the public signals
(lock and unlock, app-state changes with their background-time
reconciliation, positive credit additions and removals, interval ticks,
reset), `availableTime` is never negative. -/
theorem reachable_availableTime_nonneg (s : TimerState) (h : Reachable s) :
    0 ≤ s.availableTime :=
  (reachable_inv h).1

/-- C2 witness: adding 5 seconds and then removing 9 from the initial state
still leaves a non-negative budget. -/
theorem reachable_availableTime_nonneg_witness :
    0 ≤ ((removeTimeCredits
        (addTimeCredits (initState AppStateV.background) 5 0).1 9 1).1).availableTime :=
  reachable_availableTime_nonneg _
    (Reachable.remove 1 (by decide)
      (Reachable.add 0 (by decide) (Reachable.init AppStateV.background)))

/-- C3: in every reachable state, after any processed signal the running
flag equals the value dictated by `shouldTimerRun` on the current state —
no stale run state survives a dependent input change. -/
theorem reachable_runState_consistent (s : TimerState) (h : Reachable s) :
    s.isTimerRunning = shouldTimerRun s :=
  (reachable_inv h).2

/-- C3 witness: after adding 30 seconds while active and then backgrounding
the app, the running flag matches `shouldTimerRun`. -/
theorem reachable_runState_consistent_witness :
    ((onAppStateChange (addTimeCredits (initState AppStateV.active) 30 0).1
        AppStateV.background 5).1).isTimerRunning
      = shouldTimerRun ((onAppStateChange
          (addTimeCredits (initState AppStateV.active) 30 0).1
          AppStateV.background 5).1) :=
  reachable_runState_consistent _
    (Reachable.appChange AppStateV.background 5
      (Reachable.add 0 (by decide) (Reachable.init AppStateV.active)))

/-- C4: `shouldTimerRun` returns true exactly when the budget is positive,
the device is unlocked, and the app state is not `active`; it is a pure
function of the state. -/
theorem shouldTimerRun_characterisation (s : TimerState) :
    shouldTimerRun s = true ↔
      0 < s.availableTime ∧ s.isDeviceLocked = false
        ∧ s.appState ≠ AppStateV.active := by
  cases s with
  | mk a f l r b => cases f <;> cases l <;> simp [shouldTimerRun, beq_iff_eq]

/-- C5: removing at least the whole remaining budget while the timer runs
clamps `availableTime` to exactly zero (never negative), stops the timer
through the shared `stopTimer` path emitting exactly one `trackingStopped`
followed by `creditsRemoved` — amended: no `timeExpired` event is emitted
(that event belongs only to the tick path). -/
theorem removeTimeCredits_zero_crossing (s : TimerState) (n now : Int)
    (hpos : 0 < s.availableTime) (hge : s.availableTime ≤ n)
    (hrun : s.isTimerRunning = true) :
    (removeTimeCredits s n now).1.availableTime = 0 ∧
    (removeTimeCredits s n now).1.isTimerRunning = false ∧
    (removeTimeCredits s n now).2 = [Event.trackingStopped, Event.creditsRemoved] ∧
    Event.timeExpired ∉ (removeTimeCredits s n now).2 := by
  have h0 : max 0 (s.availableTime - n) = (0:Int) :=
    max_eq_left (by omega : s.availableTime - n ≤ 0)
  have hsr : shouldTimerRun
      { s with availableTime := max 0 (s.availableTime - n) } = false := by
    apply shouldTimerRun_nonpos
    show max 0 (s.availableTime - n) ≤ 0
    rw [h0]
  have hupd := updateTimerState_stops now hsr
    (show ({ s with availableTime := max 0 (s.availableTime - n) }
      : TimerState).isTimerRunning = true from hrun)
  have hev : (removeTimeCredits s n now).2
      = [Event.trackingStopped, Event.creditsRemoved] := by
    show (updateTimerState
        { s with availableTime := max 0 (s.availableTime - n) } now).2
      ++ [Event.creditsRemoved] = _
    rw [hupd]
    rfl
  have hav : (removeTimeCredits s n now).1.availableTime = 0 := by
    show (updateTimerState
        { s with availableTime := max 0 (s.availableTime - n) } now).1.availableTime = 0
    rw [hupd]
    exact h0
  have hrn : (removeTimeCredits s n now).1.isTimerRunning = false := by
    show (updateTimerState
        { s with availableTime := max 0 (s.availableTime - n) } now).1.isTimerRunning = false
    rw [hupd]
  refine ⟨hav, hrn, hev, ?_⟩
  rw [hev]
  decide

/-- C5 witness: removing 7 seconds from a running timer with 5 seconds left
yields a zero budget and the `trackingStopped`, `creditsRemoved` pair. -/
theorem removeTimeCredits_zero_crossing_witness :
    (removeTimeCredits ⟨5, AppStateV.background, false, true, none⟩ 7
        0).1.availableTime = 0 ∧
    (removeTimeCredits ⟨5, AppStateV.background, false, true, none⟩ 7 0).2
        = [Event.trackingStopped, Event.creditsRemoved] := by
  have h := removeTimeCredits_zero_crossing
    ⟨5, AppStateV.background, false, true, none⟩ 7 0 (by decide) (by decide) rfl
  exact ⟨h.1, h.2.2.1⟩

/-- C5 counterexample: the same zero-crossing removal emits only
`trackingStopped` and `creditsRemoved`; no `timeExpired` event is emitted,
contradicting the claimed time-expired/stop sequence. -/
theorem removeTimeCredits_no_expired_counterexample :
    (removeTimeCredits ⟨5, AppStateV.background, false, true, none⟩ 7 0).2
        = [Event.trackingStopped, Event.creditsRemoved] ∧
    Event.timeExpired ∉
      (removeTimeCredits ⟨5, AppStateV.background, false, true, none⟩ 7 0).2 := by
  refine ⟨by decide, by decide⟩

/-- C6: the `Running` to `Stopped` transition (`stopTimer`) cancels the tick
process and emits exactly one `trackingStopped` — amended: it performs no
reconciliation flush and persists nothing, leaving `availableTime` and the
checkpoint exactly as they were. -/
theorem stopTimer_transition (s : TimerState) (h : s.isTimerRunning = true) :
    stopTimer s = ({ s with isTimerRunning := false }, [Event.trackingStopped]) ∧
    (stopTimer s).1.availableTime = s.availableTime ∧
    (stopTimer s).1.backgroundStartTime = s.backgroundStartTime :=
  ⟨by simp [stopTimer, h], stopTimer_availableTime s, stopTimer_bst s⟩

/-- C6 witness: stopping a concrete running state only flips the running
flag and emits one `trackingStopped`. -/
theorem stopTimer_transition_witness :
    stopTimer ⟨100, AppStateV.background, false, true, some 1000⟩
      = (⟨100, AppStateV.background, false, false, some 1000⟩,
          [Event.trackingStopped]) :=
  (stopTimer_transition ⟨100, AppStateV.background, false, true, some 1000⟩ rfl).1

/-- C6 counterexample: a lock signal 37.5 s after the checkpoint stops the
running timer, yet the budget stays 100 (no flush debits the elapsed 37 s,
which would leave 63) and the checkpoint is untouched; the only events are
`trackingStopped` then the lock notification. -/
theorem stopTransition_no_flush_counterexample :
    (onDeviceLocked ⟨100, AppStateV.background, false, true, some 1000⟩
        38500).1.availableTime = 100 ∧
    (onDeviceLocked ⟨100, AppStateV.background, false, true, some 1000⟩
        38500).1.availableTime ≠ 63 ∧
    (onDeviceLocked ⟨100, AppStateV.background, false, true, some 1000⟩
        38500).1.backgroundStartTime = some 1000 ∧
    (onDeviceLocked ⟨100, AppStateV.background, false, true, some 1000⟩
        38500).2 = [Event.trackingStopped, Event.deviceLockedEvt] := by
  refine ⟨by decide, by decide, by decide, by decide⟩

/-- C7: starting while already running and stopping while already stopped
are no-ops with no events, and delivering the same lock, unlock or
app-state signal twice in a row never produces a duplicate
`trackingStarted` or `trackingStopped` event. -/
theorem transition_idempotent :
    (∀ (s : TimerState) (now : Int),
      s.isTimerRunning = true → startTimer s now = (s, [])) ∧
    (∀ (s : TimerState), s.isTimerRunning = false → stopTimer s = (s, [])) ∧
    (∀ (s : TimerState) (n1 n2 : Int),
      trackingEvents (onDeviceLocked (onDeviceLocked s n1).1 n2).2 = []) ∧
    (∀ (s : TimerState) (n1 n2 : Int),
      trackingEvents (onDeviceUnlocked (onDeviceUnlocked s n1).1 n2).2 = []) ∧
    (∀ (s : TimerState) (v : AppStateV) (n1 n2 : Int),
      trackingEvents (onAppStateChange (onAppStateChange s v n1).1 v n2).2 = []) := by
  refine ⟨fun s now h => startTimer_noop now h, fun s h => stopTimer_noop h,
    ?_, ?_, ?_⟩
  · intro s n1 n2
    rw [dup_lock_second]
    rfl
  · intro s n1 n2
    rw [dup_unlock_second]
    rfl
  · intro s v n1 n2
    rw [dup_appChange_second]
    rfl

/-- C7 witness: concrete no-op start and stop calls. -/
theorem transition_idempotent_witness :
    startTimer ⟨5, AppStateV.background, false, true, some 3⟩ 7
        = (⟨5, AppStateV.background, false, true, some 3⟩, []) ∧
    stopTimer ⟨5, AppStateV.active, false, false, none⟩
        = (⟨5, AppStateV.active, false, false, none⟩, []) :=
  ⟨transition_idempotent.1 _ 7 rfl, transition_idempotent.2.1 _ rfl⟩

/-- C8: a persisted remaining-time value that is present but unparsable is
NOT treated as absent: `loadSavedTime` assigns `parseInt` of it, which is
NaN (`none`), rather than keeping the zero fallback — the code diverges
from the claim at the stored value "abc". -/
theorem loadSavedTime_malformed_nan :
    loadSavedTime 0 (some "abc") = none ∧
    loadSavedTime 0 (some "abc") ≠ some 0 ∧
    loadSavedTime 0 none = some 0 := by
  refine ⟨by decide, by decide, by decide⟩

/-- C9: the bus delivers an event to every registered observer in
registration order; an observer that throws has its error caught by the
bus, and every later observer is still invoked with its own outcome. -/
theorem notifyListeners_isolating (pre post : List Observer) (bad : Observer)
    (e : Event) (m : String) (hbad : bad e = Except.error m) :
    notifyListeners (pre ++ bad :: post) e
      = notifyListeners pre e ++ ObsOutcome.caught m :: notifyListeners post e ∧
    (notifyListeners (pre ++ bad :: post) e).length
      = pre.length + 1 + post.length := by
  constructor
  · simp [notifyListeners, deliverOne, hbad]
  · simp only [notifyListeners, List.length_map, List.length_append,
      List.length_cons]
    omega

/-- C9 witness: a throwing observer between two healthy ones is caught and
both others still receive the event. -/
theorem notifyListeners_isolating_witness :
    notifyListeners
        [fun _ => Except.ok (), fun _ => Except.error "boom",
          fun _ => Except.ok ()] Event.timeUpdate
      = [ObsOutcome.ok, ObsOutcome.caught "boom", ObsOutcome.ok] := by
  have h := notifyListeners_isolating [fun _ => Except.ok ()]
    [fun _ => Except.ok ()] (fun _ => Except.error "boom")
    Event.timeUpdate "boom" rfl
  exact h.1.trans rfl

/-- C10: for every non-negative whole number of seconds, `formatTime`
renders `H:MM:SS` (hours unpadded, minutes and seconds two-digit
zero-padded) when at least 3600 seconds, and `M:SS` (minutes unpadded)
otherwise, exactly as the claim describes. -/
theorem formatTime_matches_spec (s : Nat) : formatTime s = formatTimeSpec s := by
  have hm : (s % 3600) / 60 < 60 := by omega
  have hs60 : s % 60 < 60 := by omega
  have hcond : (0 < s / 3600) ↔ 3600 ≤ s := by
    constructor
    · intro h
      by_contra hc
      push_neg at hc
      rw [Nat.div_eq_of_lt hc] at h
      exact absurd h (lt_irrefl 0)
    · intro h
      exact Nat.div_pos h (by norm_num)
  simp only [formatTime, formatTimeSpec]
  by_cases h : 3600 ≤ s
  · rw [if_pos (hcond.mpr h), if_pos h,
      padStart2_eq_twoDigits hm, padStart2_eq_twoDigits hs60]
  · rw [if_neg (fun hh => h (hcond.mp hh)), if_neg h,
      padStart2_eq_twoDigits hs60]

end TimerApp
